import Mathlib

/-!
Shallow embedding of the TH Monthly Performance analysis engine
(`src/analysis/*.py`) and proofs about its classification, allocation,
margin, loading and validation logic.

Modelling conventions:
* Money amounts are rationals (`ℚ`); the Python code uses floats, and the
  arithmetic relations claimed by the spec are stated over exact arithmetic.
* A pandas DataFrame becomes a `List` of row structures.  A column that may
  be absent or hold nulls becomes an `Option ℚ` field; pandas
  `fillna(0.0)` becomes `Option.getD 0`.
* Functions that can raise return `Except String`.
* Allocation and margin functions additionally return the state of the
  caller's dataframe after the call (pandas passes frames by reference, so
  an assignment without `.copy()` is visible to the caller).  Each such
  function returns a pair `(result, callerFrameAfterCall)`.
-/

namespace TH

/-- A revenue-center row (Pro Forma schema plus computed columns).
Mirrors `PROFORMA_SCHEMA` in `schemas.py` extended by the columns added by
`merge_direct_costs`, the three allocators and `calculate_margins`. -/
structure RevRow where
  contract_code : String
  allocation_tag : String
  revenue : ℚ
  hours : Option ℚ := none
  labor_cost : Option ℚ := none
  expense_cost : Option ℚ := none
  sga_allocation : Option ℚ := none
  data_allocation : Option ℚ := none
  workplace_allocation : Option ℚ := none
  margin_dollars : Option ℚ := none
  margin_percent : Option ℚ := none
deriving DecidableEq, Repr

/-- A Harvest hours row (`HOURS_SCHEMA`); the date column is dropped as no
verified claim depends on it. -/
structure HoursRow where
  contract_code : String
  staff_key : String
  hours : ℚ
deriving DecidableEq, Repr

/-- An expenses row (`EXPENSES_SCHEMA`, date and reimbursable flag dropped as
claim-irrelevant; the table reaching the core is already filtered). -/
structure ExpRow where
  contract_code : String
  amount : ℚ
deriving DecidableEq, Repr

/-- A compensation row (`COMPENSATION_SCHEMA`, strategy column dropped). -/
structure CompRow where
  staff_key : String
  hourly_cost : ℚ
deriving DecidableEq, Repr

/-- A P&L account row (`PNL_SCHEMA`). -/
structure PnLRow where
  account_name : String
  amount : ℚ
  bucket : String
  matched_by : String
deriving DecidableEq, Repr

/-- A cost-center table row as produced by `classify_all_activity` and
enriched by the pipeline (description column dropped as claim-irrelevant). -/
structure CCRow where
  contract_code : String
  pool : String
  total_cost : ℚ
deriving DecidableEq, Repr

/-- A row of `config/cost_centers.csv`. -/
structure CCConfigRow where
  code : String
  pool : String
deriving DecidableEq, Repr

/-- The three overhead pools returned by `OverheadAllocator.calculate_pools`. -/
structure Pools where
  sga_pool : ℚ
  data_pool : ℚ
  workplace_pool : ℚ
deriving DecidableEq, Repr

/-! ## Overhead allocation (`allocations.py`) -/

/-- Sum of the `revenue` column. -/
def revenueSum (df : List RevRow) : ℚ :=
  (df.map (fun r => r.revenue)).sum

/-- Sum of the `revenue` column over rows carrying a given allocation tag
(the eligible cohort of the Data / Workplace pools). -/
def taggedRevenueSum (df : List RevRow) (tag : String) : ℚ :=
  revenueSum (df.filter (fun r => r.allocation_tag == tag))

/-- Sum of an `Option ℚ` column with nulls as zero (pandas `Series.sum`). -/
def optColSum (df : List RevRow) (col : RevRow → Option ℚ) : ℚ :=
  (df.map (fun r => (col r).getD 0)).sum

/-- `OverheadAllocator.allocate_sga`.  First component: the returned frame or
the raised error.  Second component: the caller's frame after the call.  In
the `total_rev <= 0` branch the source assigns the column **before** taking a
copy, so the caller's frame is mutated there; in the positive branch the
column is written to a copy. -/
def allocate_sga (tolerance : ℚ) (revenue_df : List RevRow) (sga_pool : ℚ) :
    Except String (List RevRow) × List RevRow :=
  let total_rev := revenueSum revenue_df
  if total_rev ≤ 0 then
    let mutated := revenue_df.map (fun r => { r with sga_allocation := some 0 })
    (Except.ok mutated, mutated)
  else
    let out := revenue_df.map
      (fun r => { r with sga_allocation := some (r.revenue / total_rev * sga_pool) })
    if tolerance < |optColSum out (fun r => r.sga_allocation) - sga_pool| then
      (Except.error "SGA allocation does not reconcile to pool within tolerance",
       revenue_df)
    else
      (Except.ok out, revenue_df)

/-- `OverheadAllocator.allocate_data`.  The source copies the frame first,
zeroes the `data_allocation` column, then overwrites the Data-tagged rows;
the caller's frame is never touched. -/
def allocate_data (tolerance : ℚ) (revenue_df : List RevRow) (data_pool : ℚ) :
    Except String (List RevRow) × List RevRow :=
  let zeroed := revenue_df.map (fun r => { r with data_allocation := some 0 })
  let total_rev := taggedRevenueSum revenue_df "Data"
  if total_rev ≤ 0 then
    (Except.ok zeroed, revenue_df)
  else
    let out := zeroed.map (fun r =>
      if r.allocation_tag == "Data" then
        { r with data_allocation := some (r.revenue / total_rev * data_pool) }
      else r)
    if tolerance < |optColSum out (fun r => r.data_allocation) - data_pool| then
      (Except.error "Data allocation does not reconcile to pool within tolerance",
       revenue_df)
    else
      (Except.ok out, revenue_df)

/-- `OverheadAllocator.allocate_workplace`, symmetric to `allocate_data`
with the `Wellness` tag. -/
def allocate_workplace (tolerance : ℚ) (revenue_df : List RevRow) (workplace_pool : ℚ) :
    Except String (List RevRow) × List RevRow :=
  let zeroed := revenue_df.map (fun r => { r with workplace_allocation := some 0 })
  let total_rev := taggedRevenueSum revenue_df "Wellness"
  if total_rev ≤ 0 then
    (Except.ok zeroed, revenue_df)
  else
    let out := zeroed.map (fun r =>
      if r.allocation_tag == "Wellness" then
        { r with workplace_allocation := some (r.revenue / total_rev * workplace_pool) }
      else r)
    if tolerance < |optColSum out (fun r => r.workplace_allocation) - workplace_pool| then
      (Except.error "Workplace allocation does not reconcile to pool within tolerance",
       revenue_df)
    else
      (Except.ok out, revenue_df)

/-- The fill stage of `calculate_margins`: each cost/allocation column is
created if absent and nulls are filled with zero. -/
def fillCostColumns (r : RevRow) : RevRow :=
  { r with
    labor_cost := some (r.labor_cost.getD 0)
    expense_cost := some (r.expense_cost.getD 0)
    sga_allocation := some (r.sga_allocation.getD 0)
    data_allocation := some (r.data_allocation.getD 0)
    workplace_allocation := some (r.workplace_allocation.getD 0) }

/-- `calculate_margins`.  The source copies the frame, fills the five cost
columns, computes `margin_dollars` row-wise and `margin_percent` with the
Python truthiness guard `if r['revenue']` (zero revenue gives percent 0).
The caller's frame is never touched. -/
def calculate_margins (revenue_df : List RevRow) :
    List RevRow × List RevRow :=
  let filled := revenue_df.map fillCostColumns
  let out := filled.map (fun r =>
    let md := r.revenue - r.labor_cost.getD 0 - r.expense_cost.getD 0
      - r.sga_allocation.getD 0 - r.data_allocation.getD 0
      - r.workplace_allocation.getD 0
    { r with
      margin_dollars := some md
      margin_percent := some (if r.revenue = 0 then 0 else md / r.revenue * 100) })
  (out, revenue_df)

/-- Sum of the `amount` column of P&L rows in a given bucket. -/
def pnlBucketSum (pnl : List PnLRow) (b : String) : ℚ :=
  ((pnl.filter (fun r => r.bucket == b)).map (fun r => r.amount)).sum

/-- Sum of the `total_cost` column of cost-center rows with a given pool label. -/
def ccPoolSum (cc : List CCRow) (p : String) : ℚ :=
  ((cc.filter (fun r => r.pool == p)).map (fun r => r.total_cost)).sum

/-- `OverheadAllocator.calculate_pools`.  The source computes each P&L bucket
total guarded by an emptiness test, and adds the cost-center contributions to
the SGA and DATA pools only when the single switch is on and the cost-center
frame is nonempty (the column-presence tests always hold in this model). -/
def calculate_pools (pnl_df : List PnLRow) (cost_centers_df : List CCRow)
    (include_cc_in_sga : Bool) : Pools :=
  let data_pnl := if pnl_df.isEmpty then 0 else pnlBucketSum pnl_df "DATA"
  let workplace_pnl := if pnl_df.isEmpty then 0 else pnlBucketSum pnl_df "WORKPLACE"
  let sga_pnl := if pnl_df.isEmpty then 0 else pnlBucketSum pnl_df "SGA"
  let addCC := include_cc_in_sga && !cost_centers_df.isEmpty
  let data_pool := if addCC then data_pnl + ccPoolSum cost_centers_df "DATA" else data_pnl
  let sga_pool := if addCC then sga_pnl + ccPoolSum cost_centers_df "SGA" else sga_pnl
  { sga_pool := sga_pool, data_pool := data_pool, workplace_pool := workplace_pnl }

/-! ## Classification (`classification.py`) -/

/-- Python `str.startswith`, modelled structurally on the character list so
that concrete inputs evaluate (the byte-level `String.startsWith` of the
standard library is opaque to kernel reduction). -/
def pyStartsWith (s p : String) : Bool :=
  p.data.isPrefixOf s.data

/-- The conflict message raised by `ProjectClassifier.classify`. -/
def classifyConflictMsg (code : String) : String :=
  "Classification conflict for " ++ code ++
    ": Code appears as both Revenue Center (Pro Forma) and Cost Center (config). Please resolve."

/-- `ProjectClassifier.classify`: classify one code given the configured
cost-center code set and whether the code counts as a revenue center. -/
def classify (cost_centers : List String) (project_code : String)
    (is_revenue_center : Bool) : Except String String :=
  let is_in_config := cost_centers.contains project_code
  let is_ths_internal := pyStartsWith project_code "THS-" && !is_revenue_center
  let is_cost_center := is_in_config || is_ths_internal
  if is_revenue_center && is_in_config then
    Except.error (classifyConflictMsg project_code)
  else if is_revenue_center then
    Except.ok "revenue_center"
  else if is_cost_center then
    Except.ok "cost_center"
  else
    Except.ok "non_revenue_client"

/-- The class string `classify` returns on its non-raising paths. -/
def classLabel (cost_centers : List String) (project_code : String)
    (is_revenue_center : Bool) : String :=
  if is_revenue_center then "revenue_center"
  else if cost_centers.contains project_code ||
      (pyStartsWith project_code "THS-" && !is_revenue_center) then "cost_center"
  else "non_revenue_client"

/-- `classify` raises exactly when the code is a revenue center explicitly
configured as a cost center, and otherwise returns `classLabel`. -/
theorem classify_eq (cost_centers : List String) (code : String) (isRev : Bool) :
    classify cost_centers code isRev =
      if isRev && cost_centers.contains code then
        Except.error (classifyConflictMsg code)
      else Except.ok (classLabel cost_centers code isRev) := by
  unfold classify classLabel
  cases isRev <;> cases h : cost_centers.contains code <;>
    simp [h, apply_ite (f := Except.ok (ε := String))]

/-- The universe of codes classified by `classify_all_activity`: revenue
codes, activity codes (hours and expenses) and configured cost-center codes.
Python forms a set; we deduplicate keeping first appearances. -/
def allCodesOf (config : List CCConfigRow) (revenue_df : List RevRow)
    (hours_df : List HoursRow) (expenses_df : List ExpRow) : List String :=
  ((revenue_df.map (fun r => r.contract_code))
    ++ hours_df.map (fun r => r.contract_code)
    ++ expenses_df.map (fun r => r.contract_code)
    ++ config.map (fun r => r.code)).dedup

/-- The contract-code column of the revenue frame. -/
def revCodesOf (revenue_df : List RevRow) : List String :=
  revenue_df.map (fun r => r.contract_code)

/-- The configured cost-center code set. -/
def ccCodesOf (config : List CCConfigRow) : List String :=
  config.map (fun r => r.code)

/-- The class the loop in `classify_all_activity` assigns to a code that
raises no conflict. -/
def labelOf (config : List CCConfigRow) (revenue_df : List RevRow)
    (c : String) : String :=
  classLabel (ccCodesOf config) c ((revCodesOf revenue_df).contains c)

/-- The codes of `all_codes` the loop assigns a given class. -/
def codesWithLabel (config : List CCConfigRow) (revenue_df : List RevRow)
    (all_codes : List String) (lab : String) : List String :=
  all_codes.filter (fun c => labelOf config revenue_df c == lab)

/-- The revenue-center output table: the revenue frame filtered to the codes
classified `revenue_center`. -/
def revenueCenterTable (revenue_df : List RevRow) (rcc : List String) :
    List RevRow :=
  revenue_df.filter (fun r => rcc.contains r.contract_code)

/-- The cost-center output table built from the codes `ccc` classified
`cost_center`: the configured rows whose code is in `ccc` (with cost zero),
followed by the auto-classified `THS-` codes absent from the configured part,
materialized with the default `SGA` pool label. -/
def costCenterTable (config : List CCConfigRow) (ccc : List String) :
    List CCRow :=
  let cost_centers_cfg :=
    (config.filter (fun r => ccc.contains r.code)).map
      (fun r => CCRow.mk r.code r.pool 0)
  let config_codes := cost_centers_cfg.map (fun r => r.contract_code)
  let missing_ths := ccc.filter
    (fun c => pyStartsWith c "THS-" && !config_codes.contains c)
  cost_centers_cfg ++ missing_ths.map (fun c => CCRow.mk c "SGA" 0)

/-- `classify_all_activity`.  The classification loop raises on the first
code for which `classify` raises (by `classify_eq`, exactly the codes that
are both in the revenue frame and in the config); else every code gets its
`classLabel` and the three output tables are assembled.  The source sorts the
non-revenue code list and recovers project names from hours data; ordering
and the name column are dropped as claim-irrelevant. -/
def classify_all_activity (config : List CCConfigRow) (revenue_df : List RevRow)
    (hours_df : List HoursRow) (expenses_df : List ExpRow) :
    Except String (List RevRow × List CCRow × List String) :=
  let all_codes := allCodesOf config revenue_df hours_df expenses_df
  match all_codes.find? (fun c =>
      (revCodesOf revenue_df).contains c && (ccCodesOf config).contains c) with
  | some c => Except.error (classifyConflictMsg c)
  | none =>
    Except.ok
      (revenueCenterTable revenue_df
        (codesWithLabel config revenue_df all_codes "revenue_center"),
       costCenterTable config
        (codesWithLabel config revenue_df all_codes "cost_center"),
       codesWithLabel config revenue_df all_codes "non_revenue_client")

/-! ## Pro Forma duplicate aggregation (`loaders.py`) -/

/-- A project row extracted from the Pro Forma sheet before aggregation. -/
structure ProjectRow where
  contract_code : String
  project_name : String
  proforma_section : String
  allocation_tag : String
  revenue : ℚ
deriving DecidableEq, Repr

/-- Non-blank allocation tags carried by a code's rows (the source builds a
set of the rows' tags and discards the empty string). -/
def codeTags (projects : List ProjectRow) (code : String) : List String :=
  ((projects.filter (fun p => p.contract_code == code)).map
    (fun p => p.allocation_tag)).filter (fun t => t ≠ "")

/-- Whether a code's rows carry both a `Data` and a `Wellness` tag. -/
def hasTagConflict (projects : List ProjectRow) (code : String) : Bool :=
  (codeTags projects code).contains "Data" && (codeTags projects code).contains "Wellness"

/-- The error raised by `_aggregate_duplicates` on a tag conflict. -/
def tagConflictMsg (code : String) : String :=
  "Allocation tag conflict for contract code " ++ code ++
    ": Found both Data and Wellness tags. Please fix Pro Forma."

/-- `reconcile_tag`: Data wins over Wellness, else blank. -/
def reconcile_tag (tags : List String) : String :=
  if tags.contains "Data" then "Data"
  else if tags.contains "Wellness" then "Wellness"
  else ""

/-- The aggregated row `_aggregate_duplicates` produces for one code:
first name and section, reconciled tag, summed revenue. -/
def aggRowFor (projects : List ProjectRow) (code : String) : ProjectRow :=
  let rows := projects.filter (fun p => p.contract_code == code)
  { contract_code := code
    project_name := ((rows.map (fun p => p.project_name)).headD "")
    proforma_section := ((rows.map (fun p => p.proforma_section)).headD "")
    allocation_tag := reconcile_tag (codeTags projects code)
    revenue := (rows.map (fun p => p.revenue)).sum }

/-- `ProFormaLoader._aggregate_duplicates`: scan the unique codes for a
Data/Wellness tag conflict before any aggregation, raising on the first
conflicting code; otherwise aggregate per unique code. -/
def aggregate_duplicates (projects : List ProjectRow) :
    Except String (List ProjectRow) :=
  let codes := (projects.map (fun p => p.contract_code)).dedup
  match codes.find? (fun c => hasTagConflict projects c) with
  | some c => Except.error (tagConflictMsg c)
  | none => Except.ok (codes.map (fun c => aggRowFor projects c))

/-! ## Cost computations (`computations.py`) -/

/-- A labor-cost table row (output of `calculate_labor_costs`). -/
structure LaborRow where
  contract_code : String
  hours : ℚ
  labor_cost : ℚ
deriving DecidableEq, Repr

/-- The hourly cost the left join on `staff_key` attaches to an hours row
(compensation keys are unique, so the first match is the match). -/
def compLookup (comp_df : List CompRow) (staff : String) : Option ℚ :=
  (comp_df.find? (fun c => c.staff_key == staff)).map (fun c => c.hourly_cost)

/-- Hours rows whose staff key has no compensation record. -/
def missingCompRows (hours_df : List HoursRow) (comp_df : List CompRow) :
    List HoursRow :=
  hours_df.filter (fun h => (compLookup comp_df h.staff_key).isNone)

/-- Hours rows whose staff key has a compensation record. -/
def matchedCompRows (hours_df : List HoursRow) (comp_df : List CompRow) :
    List HoursRow :=
  hours_df.filter (fun h => (compLookup comp_df h.staff_key).isSome)

/-- `calculate_labor_costs`: left-join hours with compensation, warn about
and drop rows with no match, then group hours and hours × hourly cost by
contract code.  The warning is modelled structurally as the pair
(distinct missing staff count, total missing hours); pandas sorts group keys
while this model keeps first-appearance order (claim-irrelevant). -/
def calculate_labor_costs (hours_df : List HoursRow) (comp_df : List CompRow) :
    List LaborRow × Option (Nat × ℚ) :=
  let missing := missingCompRows hours_df comp_df
  let warning :=
    if missing.isEmpty then none
    else some (((missing.map (fun h => h.staff_key)).dedup).length,
               (missing.map (fun h => h.hours)).sum)
  let kept := matchedCompRows hours_df comp_df
  let codes := (kept.map (fun h => h.contract_code)).dedup
  let table := codes.map (fun code =>
    let rows := kept.filter (fun h => h.contract_code == code)
    { contract_code := code
      hours := (rows.map (fun h => h.hours)).sum
      labor_cost := (rows.map (fun h =>
        h.hours * (compLookup comp_df h.staff_key).getD 0)).sum : LaborRow })
  (table, warning)

/-! ## Validation (`validators.py`)

Each validator mutates a shared `ValidationResult` through `add_pass`,
`add_warning` and `add_failure`; its net effect is the ordered list of
recorded findings, so a validator is embedded as a function from the data
dictionary to a list of events, and `run_all_validations` replays the
concatenated events of the four families into a `ValidationResult`. -/

/-- One recorded finding. -/
inductive VEvent where
  | pass (msg : String)
  | warn (msg : String)
  | fail (msg : String)
deriving DecidableEq, Repr

/-- `ValidationResult`: ordered message lists per severity. -/
structure ValidationResult where
  passes : List String
  warnings : List String
  failures : List String
deriving DecidableEq, Repr

/-- The empty `ValidationResult`. -/
def ValidationResult.empty : ValidationResult := ⟨[], [], []⟩

/-- `add_pass` / `add_warning` / `add_failure`, dispatched on the event. -/
def ValidationResult.record (r : ValidationResult) : VEvent → ValidationResult
  | VEvent.pass m => { r with passes := r.passes ++ ["✓ " ++ m] }
  | VEvent.warn m => { r with warnings := r.warnings ++ ["⚠ " ++ m] }
  | VEvent.fail m => { r with failures := r.failures ++ ["✗ " ++ m] }

/-- Replay a list of events into a `ValidationResult`. -/
def runEvents (events : List VEvent) : ValidationResult :=
  events.foldl ValidationResult.record ValidationResult.empty

/-- `ValidationResult.has_failures`. -/
def ValidationResult.has_failures (r : ValidationResult) : Bool :=
  !r.failures.isEmpty

/-- `ValidationResult.summary`. -/
def ValidationResult.summary (r : ValidationResult) : String :=
  "PASS: " ++ toString r.passes.length ++ " | WARN: " ++
    toString r.warnings.length ++ " | FAIL: " ++ toString r.failures.length

/-- The data dictionary assembled by the pipeline before validation.  The
pipeline always populates all nine keys, so the completeness validator's
missing-key branch is dead and the structure carries every field. -/
structure AnalysisData where
  revenue_centers : List RevRow
  cost_centers : List CCRow
  non_revenue_clients : List String
  proforma : List RevRow
  pools : Pools
  hours : List HoursRow
  expenses : List ExpRow
  compensation : List CompRow
  pnl : List PnLRow
deriving Repr

/-- `DataCompletenessValidator.validate`.  The required-keys and pools-keys
checks always pass here because the model's data structure has every key. -/
def completenessValidate (d : AnalysisData) : List VEvent :=
  [if d.revenue_centers.isEmpty then VEvent.fail "No revenue centers found"
   else VEvent.pass "Revenue centers loaded"]
  ++ [VEvent.pass "Overhead pools calculated"]
  ++ [if d.compensation.isEmpty then VEvent.fail "Compensation data missing or empty"
      else VEvent.pass "Compensation loaded"]
  ++ (if d.hours.isEmpty then [VEvent.warn "Harvest Hours is empty"] else [])
  ++ (if d.expenses.isEmpty then [VEvent.warn "Harvest Expenses is empty"] else [])

/-- Compensation staff keys that occur more than once (`duplicated(keep=False)`,
reported deduplicated; the source also sorts, which is claim-irrelevant). -/
def duplicateStaffKeys (comp : List CompRow) : List String :=
  ((comp.map (fun c => c.staff_key)).filter
    (fun s => 1 < (comp.map (fun c => c.staff_key)).count s)).dedup

/-- Hours staff keys with no compensation record (a set difference). -/
def staffMissingFromComp (hours : List HoursRow) (comp : List CompRow) :
    List String :=
  ((hours.map (fun h => h.staff_key)).dedup).filter
    (fun s => !(comp.map (fun c => c.staff_key)).contains s)

/-- Codes present in both the revenue-center and cost-center tables. -/
def revCostOverlap (d : AnalysisData) : List String :=
  ((d.revenue_centers.map (fun r => r.contract_code)).dedup).filter
    (fun c => (d.cost_centers.map (fun r => r.contract_code)).contains c)

/-- `KeyIntegrityValidator.validate`. -/
def keyIntegrityValidate (d : AnalysisData) : List VEvent :=
  (if d.compensation.isEmpty then []
   else if (duplicateStaffKeys d.compensation).isEmpty then
     [VEvent.pass "Unique Last Names in Compensation"]
   else
     [VEvent.fail ("Duplicate Last Names in Compensation: " ++
       String.intercalate ", " (duplicateStaffKeys d.compensation))])
  ++ (if d.hours.isEmpty || d.compensation.isEmpty then []
      else if (staffMissingFromComp d.hours d.compensation).isEmpty then
        [VEvent.pass "All Harvest Hours staff have compensation records"]
      else
        [VEvent.fail ("Harvest Hours staff missing in Compensation: " ++
          String.intercalate ", " (staffMissingFromComp d.hours d.compensation))])
  ++ [if (revCostOverlap d).isEmpty then
        VEvent.pass "No revenue/cost center code conflicts"
      else
        VEvent.fail ("Codes appear as both revenue and cost centers: " ++
          String.intercalate ", " (revCostOverlap d))]

/-- Whether every row of the table carries a value in the given column
(pandas column presence is table-level; the pipeline adds each allocation
column to every row at once). -/
def colPresent (df : List RevRow) (col : RevRow → Option ℚ) : Bool :=
  df.all (fun r => (col r).isSome)

/-- One reconciliation event: the column total against the pool total. -/
def mathCheckEvent (tol : ℚ) (d : AnalysisData) (col : RevRow → Option ℚ)
    (pool : ℚ) (label : String) : List VEvent :=
  if colPresent d.revenue_centers col then
    [if |optColSum d.revenue_centers col - pool| ≤ tol then
       VEvent.pass (label ++ " sums to pool")
     else VEvent.fail (label ++ " does not sum to pool")]
  else []

/-- `MathematicalValidator.validate`.  Skips everything when the revenue
table is empty; checks revenue against the Pro Forma total when the Pro
Forma table is nonempty (its revenue column always exists in this model);
then checks each allocation column present in the table against its pool. -/
def mathematicalValidate (tol : ℚ) (d : AnalysisData) : List VEvent :=
  if d.revenue_centers.isEmpty then []
  else
    (if d.proforma.isEmpty then []
     else
       [if |revenueSum d.revenue_centers - revenueSum d.proforma| ≤ tol then
          VEvent.pass "Revenue sum matches Pro Forma"
        else VEvent.fail "Revenue sum does not match Pro Forma"])
    ++ mathCheckEvent tol d (fun r => r.sga_allocation) d.pools.sga_pool "Sga Allocation"
    ++ mathCheckEvent tol d (fun r => r.data_allocation) d.pools.data_pool "Data Allocation"
    ++ mathCheckEvent tol d (fun r => r.workplace_allocation) d.pools.workplace_pool
        "Workplace Allocation"

/-- Hours codes that are neither revenue-center nor cost-center codes. -/
def hoursCodesWithoutRevenue (d : AnalysisData) : List String :=
  ((d.hours.map (fun h => h.contract_code)).dedup).filter (fun c =>
    !(d.revenue_centers.map (fun r => r.contract_code)).contains c &&
    !(d.cost_centers.map (fun r => r.contract_code)).contains c)

/-- `ReasonablenessValidator.validate`: warnings (and one pass) only. -/
def reasonablenessValidate (d : AnalysisData) : List VEvent :=
  (if !d.revenue_centers.isEmpty && colPresent d.revenue_centers (fun r => r.hours) then
     let no_hours := d.revenue_centers.filter (fun r => (r.hours).getD 0 == 0)
     if no_hours.isEmpty then []
     else [VEvent.warn (toString no_hours.length ++
       " revenue centers have revenue but no hours")]
   else [])
  ++ (if d.hours.isEmpty then []
      else if (hoursCodesWithoutRevenue d).isEmpty then []
      else [VEvent.warn (toString (hoursCodesWithoutRevenue d).length ++
        " codes have hours but no revenue (non-revenue clients)")])
  ++ (if d.pnl.isEmpty then []
      else
        let unmatched := d.pnl.filter
          (fun p => p.matched_by == "default" && p.bucket == "SGA")
        if unmatched.isEmpty then
          [VEvent.pass "All P&L accounts matched by tagging rules or assigned appropriately"]
        else [VEvent.warn (toString unmatched.length ++
          " P&L accounts defaulted to SG&A (unmatched)")])

/-- The events of the four validator families run in order, unconditionally. -/
def allValidationEvents (tol : ℚ) (d : AnalysisData) : List VEvent :=
  completenessValidate d ++ keyIntegrityValidate d
    ++ mathematicalValidate tol d ++ reasonablenessValidate d

/-- `run_all_validations`: run all four families, then raise with the
aggregated summary exactly when a failure was recorded. -/
def run_all_validations (d : AnalysisData) (tol : ℚ) :
    Except String ValidationResult :=
  let results := runEvents (allValidationEvents tol d)
  if results.has_failures then
    Except.error ("Validation failed: " ++ results.summary)
  else
    Except.ok results

section RatEval

/- Batteries marks the rational-number operations irreducible, which blocks
`decide` on concrete money arithmetic; restore default reducibility locally
so that witnesses can evaluate the definitions on concrete inputs. -/
attribute [local semireducible] Rat.add Rat.mul Rat.sub Rat.inv

/-! ## C1: pro-rata pool distribution -/

/-- Spec-side SGA distribution: every revenue center receives
(member revenue / cohort total revenue) × pool. -/
def sgaSpecTable (df : List RevRow) (pool : ℚ) : List RevRow :=
  df.map (fun r => { r with sga_allocation := some (r.revenue / revenueSum df * pool) })

/-- Spec-side Data distribution: Data-tagged members receive their pro-rata
share, non-members exactly zero. -/
def dataSpecTable (df : List RevRow) (pool : ℚ) : List RevRow :=
  df.map (fun r =>
    if r.allocation_tag == "Data" then
      { r with data_allocation := some (r.revenue / taggedRevenueSum df "Data" * pool) }
    else { r with data_allocation := some 0 })

/-- Spec-side Workplace distribution: Wellness-tagged members receive their
pro-rata share, non-members exactly zero. -/
def workplaceSpecTable (df : List RevRow) (pool : ℚ) : List RevRow :=
  df.map (fun r =>
    if r.allocation_tag == "Wellness" then
      { r with workplace_allocation := some (r.revenue / taggedRevenueSum df "Wellness" * pool) }
    else { r with workplace_allocation := some 0 })

/-- Writing `revenue / t * p` into the SGA column of every row gives a
column summing to `(Σ revenue) / t * p`. -/
theorem sga_col_sum (l : List RevRow) (t p : ℚ) :
    optColSum (l.map (fun r =>
        { r with sga_allocation := some (r.revenue / t * p) }))
      (fun r => r.sga_allocation)
      = (l.map (fun r => r.revenue)).sum / t * p := by
  induction l with
  | nil => simp [optColSum]
  | cons a tl ih => simp [optColSum, add_div, add_mul] at ih ⊢; rw [ih]

/-- Writing `revenue / t * p` into the Data column on the Data cohort and
zero elsewhere gives a column summing to `(Σ cohort revenue) / t * p`. -/
theorem data_col_sum (l : List RevRow) (t p : ℚ) :
    optColSum (l.map (fun r =>
        if r.allocation_tag == "Data" then
          { r with data_allocation := some (r.revenue / t * p) }
        else { r with data_allocation := some 0 }))
      (fun r => r.data_allocation)
      = ((l.filter (fun r => r.allocation_tag == "Data")).map
          (fun r => r.revenue)).sum / t * p := by
  induction l with
  | nil => simp [optColSum]
  | cons a tl ih =>
    by_cases h : a.allocation_tag = "Data" <;>
      simp [optColSum, List.filter_cons, h, add_div, add_mul] at ih ⊢ <;>
      rw [ih]

/-- Writing `revenue / t * p` into the Workplace column on the Wellness
cohort and zero elsewhere gives a column summing to
`(Σ cohort revenue) / t * p`. -/
theorem workplace_col_sum (l : List RevRow) (t p : ℚ) :
    optColSum (l.map (fun r =>
        if r.allocation_tag == "Wellness" then
          { r with workplace_allocation := some (r.revenue / t * p) }
        else { r with workplace_allocation := some 0 }))
      (fun r => r.workplace_allocation)
      = ((l.filter (fun r => r.allocation_tag == "Wellness")).map
          (fun r => r.revenue)).sum / t * p := by
  induction l with
  | nil => simp [optColSum]
  | cons a tl ih =>
    by_cases h : a.allocation_tag = "Wellness" <;>
      simp [optColSum, List.filter_cons, h, add_div, add_mul] at ih ⊢ <;>
      rw [ih]

/-- The SGA allocation column sums exactly to the pool when cohort revenue is
nonzero. -/
theorem sgaSpecTable_sum (df : List RevRow) (pool : ℚ) (h : revenueSum df ≠ 0) :
    optColSum (sgaSpecTable df pool) (fun r => r.sga_allocation) = pool :=
  calc optColSum (sgaSpecTable df pool) (fun r => r.sga_allocation)
      = (df.map (fun r => r.revenue)).sum / revenueSum df * pool :=
        sga_col_sum df (revenueSum df) pool
    _ = revenueSum df / revenueSum df * pool := rfl
    _ = pool := by rw [div_self h, one_mul]

/-- The Data allocation column sums exactly to the pool when cohort revenue
is nonzero. -/
theorem dataSpecTable_sum (df : List RevRow) (pool : ℚ)
    (h : taggedRevenueSum df "Data" ≠ 0) :
    optColSum (dataSpecTable df pool) (fun r => r.data_allocation) = pool :=
  calc optColSum (dataSpecTable df pool) (fun r => r.data_allocation)
      = ((df.filter (fun r => r.allocation_tag == "Data")).map
          (fun r => r.revenue)).sum / taggedRevenueSum df "Data" * pool :=
        data_col_sum df (taggedRevenueSum df "Data") pool
    _ = taggedRevenueSum df "Data" / taggedRevenueSum df "Data" * pool := rfl
    _ = pool := by rw [div_self h, one_mul]

/-- The Workplace allocation column sums exactly to the pool when cohort
revenue is nonzero. -/
theorem workplaceSpecTable_sum (df : List RevRow) (pool : ℚ)
    (h : taggedRevenueSum df "Wellness" ≠ 0) :
    optColSum (workplaceSpecTable df pool) (fun r => r.workplace_allocation) = pool :=
  calc optColSum (workplaceSpecTable df pool) (fun r => r.workplace_allocation)
      = ((df.filter (fun r => r.allocation_tag == "Wellness")).map
          (fun r => r.revenue)).sum / taggedRevenueSum df "Wellness" * pool :=
        workplace_col_sum df (taggedRevenueSum df "Wellness") pool
    _ = taggedRevenueSum df "Wellness" / taggedRevenueSum df "Wellness" * pool := rfl
    _ = pool := by rw [div_self h, one_mul]

/-- The zero-then-overwrite sequence of `allocate_data` produces the
spec-side table. -/
theorem allocate_data_out_eq (df : List RevRow) (pool t : ℚ) :
    ((df.map (fun r => { r with data_allocation := some 0 })).map (fun r =>
      if r.allocation_tag == "Data" then
        { r with data_allocation := some (r.revenue / t * pool) }
      else r)) =
    df.map (fun r =>
      if r.allocation_tag == "Data" then
        { r with data_allocation := some (r.revenue / t * pool) }
      else { r with data_allocation := some 0 }) := by
  rw [List.map_map]
  refine List.map_congr_left ?_
  intro r _
  simp only [Function.comp_apply]

/-- The zero-then-overwrite sequence of `allocate_workplace` produces the
spec-side table. -/
theorem allocate_workplace_out_eq (df : List RevRow) (pool t : ℚ) :
    ((df.map (fun r => { r with workplace_allocation := some 0 })).map (fun r =>
      if r.allocation_tag == "Wellness" then
        { r with workplace_allocation := some (r.revenue / t * pool) }
      else r)) =
    df.map (fun r =>
      if r.allocation_tag == "Wellness" then
        { r with workplace_allocation := some (r.revenue / t * pool) }
      else { r with workplace_allocation := some 0 }) := by
  rw [List.map_map]
  refine List.map_congr_left ?_
  intro r _
  simp only [Function.comp_apply]



/-- C1: for each overhead pool (SGA over all revenue centers, Data over
`Data`-tagged codes, Workplace over `Wellness`-tagged codes), when the
eligible cohort's total revenue is positive the allocator returns the table
in which each member receives (member revenue / cohort total) × pool and
each non-member exactly zero, that allocation column sums exactly to the
pool total (so the fast-fail tolerance check, which raises if and only if
the column total is off by more than the tolerance, does not fire), and the
allocator errors exactly when the column total is off by more than the
tolerance; when the cohort total is zero or negative, every member receives
zero and no error is raised. -/
theorem C1_prorata_pool_allocation (tol pool : ℚ) (df : List RevRow)
    (htol : 0 ≤ tol) :
    ((0 < revenueSum df →
        allocate_sga tol df pool = (Except.ok (sgaSpecTable df pool), df) ∧
        optColSum (sgaSpecTable df pool) (fun r => r.sga_allocation) = pool) ∧
      (revenueSum df ≤ 0 →
        allocate_sga tol df pool =
          (Except.ok (df.map (fun r => { r with sga_allocation := some 0 })),
           df.map (fun r => { r with sga_allocation := some 0 }))) ∧
      ((allocate_sga tol df pool).1.isOk = false ↔
        0 < revenueSum df ∧
          tol < |optColSum (sgaSpecTable df pool) (fun r => r.sga_allocation) - pool|)) ∧
    ((0 < taggedRevenueSum df "Data" →
        allocate_data tol df pool = (Except.ok (dataSpecTable df pool), df) ∧
        optColSum (dataSpecTable df pool) (fun r => r.data_allocation) = pool) ∧
      (taggedRevenueSum df "Data" ≤ 0 →
        allocate_data tol df pool =
          (Except.ok (df.map (fun r => { r with data_allocation := some 0 })), df)) ∧
      ((allocate_data tol df pool).1.isOk = false ↔
        0 < taggedRevenueSum df "Data" ∧
          tol < |optColSum (dataSpecTable df pool) (fun r => r.data_allocation) - pool|)) ∧
    ((0 < taggedRevenueSum df "Wellness" →
        allocate_workplace tol df pool = (Except.ok (workplaceSpecTable df pool), df) ∧
        optColSum (workplaceSpecTable df pool) (fun r => r.workplace_allocation) = pool) ∧
      (taggedRevenueSum df "Wellness" ≤ 0 →
        allocate_workplace tol df pool =
          (Except.ok (df.map (fun r => { r with workplace_allocation := some 0 })), df)) ∧
      ((allocate_workplace tol df pool).1.isOk = false ↔
        0 < taggedRevenueSum df "Wellness" ∧
          tol < |optColSum (workplaceSpecTable df pool)
            (fun r => r.workplace_allocation) - pool|)) := by
  have hfoldS : (df.map (fun r =>
      { r with sga_allocation := some (r.revenue / revenueSum df * pool) }))
      = sgaSpecTable df pool := rfl
  refine ⟨⟨?_, ?_, ?_⟩, ⟨?_, ?_, ?_⟩, ?_, ?_, ?_⟩
  · intro hpos
    have hsum := sgaSpecTable_sum df pool (ne_of_gt hpos)
    refine ⟨?_, hsum⟩
    simp only [allocate_sga]
    rw [if_neg (not_le.mpr hpos), hfoldS, hsum, sub_self, abs_zero,
      if_neg (not_lt.mpr htol)]
  · intro hle
    simp only [allocate_sga]
    rw [if_pos hle]
  · by_cases hle : revenueSum df ≤ 0
    · simp only [allocate_sga]
      rw [if_pos hle]
      simp [Except.isOk, Except.toBool, not_lt.mpr hle]
    · have hsum := sgaSpecTable_sum df pool (ne_of_gt (not_le.mp hle))
      simp only [allocate_sga]
      rw [if_neg hle, hfoldS, hsum, sub_self, abs_zero,
        if_neg (not_lt.mpr htol)]
      simp [Except.isOk, Except.toBool, not_lt.mpr htol]
  · intro hpos
    have hsum := dataSpecTable_sum df pool (ne_of_gt hpos)
    refine ⟨?_, hsum⟩
    simp only [allocate_data]
    rw [if_neg (not_le.mpr hpos),
      allocate_data_out_eq df pool (taggedRevenueSum df "Data")]
    rw [show (df.map (fun r =>
        if r.allocation_tag == "Data" then
          { r with data_allocation := some (r.revenue / taggedRevenueSum df "Data" * pool) }
        else { r with data_allocation := some 0 })) = dataSpecTable df pool from rfl]
    rw [hsum, sub_self, abs_zero, if_neg (not_lt.mpr htol)]
  · intro hle
    simp only [allocate_data]
    rw [if_pos hle]
  · by_cases hle : taggedRevenueSum df "Data" ≤ 0
    · simp only [allocate_data]
      rw [if_pos hle]
      simp [Except.isOk, Except.toBool, not_lt.mpr hle]
    · have hsum := dataSpecTable_sum df pool (ne_of_gt (not_le.mp hle))
      simp only [allocate_data]
      rw [if_neg hle,
        allocate_data_out_eq df pool (taggedRevenueSum df "Data")]
      rw [show (df.map (fun r =>
          if r.allocation_tag == "Data" then
            { r with data_allocation := some (r.revenue / taggedRevenueSum df "Data" * pool) }
          else { r with data_allocation := some 0 })) = dataSpecTable df pool from rfl]
      rw [hsum, sub_self, abs_zero, if_neg (not_lt.mpr htol)]
      simp [Except.isOk, Except.toBool, not_lt.mpr htol]
  · intro hpos
    have hsum := workplaceSpecTable_sum df pool (ne_of_gt hpos)
    refine ⟨?_, hsum⟩
    simp only [allocate_workplace]
    rw [if_neg (not_le.mpr hpos),
      allocate_workplace_out_eq df pool (taggedRevenueSum df "Wellness")]
    rw [show (df.map (fun r =>
        if r.allocation_tag == "Wellness" then
          { r with workplace_allocation := some (r.revenue / taggedRevenueSum df "Wellness" * pool) }
        else { r with workplace_allocation := some 0 })) = workplaceSpecTable df pool from rfl]
    rw [hsum, sub_self, abs_zero, if_neg (not_lt.mpr htol)]
  · intro hle
    simp only [allocate_workplace]
    rw [if_pos hle]
  · by_cases hle : taggedRevenueSum df "Wellness" ≤ 0
    · simp only [allocate_workplace]
      rw [if_pos hle]
      simp [Except.isOk, Except.toBool, not_lt.mpr hle]
    · have hsum := workplaceSpecTable_sum df pool (ne_of_gt (not_le.mp hle))
      simp only [allocate_workplace]
      rw [if_neg hle,
        allocate_workplace_out_eq df pool (taggedRevenueSum df "Wellness")]
      rw [show (df.map (fun r =>
          if r.allocation_tag == "Wellness" then
            { r with workplace_allocation := some (r.revenue / taggedRevenueSum df "Wellness" * pool) }
          else { r with workplace_allocation := some 0 })) = workplaceSpecTable df pool from rfl]
      rw [hsum, sub_self, abs_zero, if_neg (not_lt.mpr htol)]
      simp [Except.isOk, Except.toBool, not_lt.mpr htol]

/-- The spec's round-trip example: three projects with revenue $60,000,
$30,000 and $10,000 (the latter two tagged `Data` and `Wellness`). -/
def C1sample : List RevRow :=
  [{ contract_code := "BEH-25-01", allocation_tag := "", revenue := 60000 },
   { contract_code := "DAT-25-02", allocation_tag := "Data", revenue := 30000 },
   { contract_code := "WWB-25-03", allocation_tag := "Wellness", revenue := 10000 }]

/-- Witness for C1 at the spec's round-trip example: total revenue $100,000
is positive, `allocate_sga` of a $9,000 pool succeeds without touching the
input, and the allocations are exactly $5,400 / $2,700 / $900, summing to
$9,000. -/
theorem C1_prorata_pool_allocation_witness :
    (0 : ℚ) < revenueSum C1sample ∧
    allocate_sga (1/100) C1sample 9000 =
      (Except.ok (sgaSpecTable C1sample 9000), C1sample) ∧
    sgaSpecTable C1sample 9000 =
      [{ contract_code := "BEH-25-01", allocation_tag := "", revenue := 60000,
         sga_allocation := some 5400 },
       { contract_code := "DAT-25-02", allocation_tag := "Data", revenue := 30000,
         sga_allocation := some 2700 },
       { contract_code := "WWB-25-03", allocation_tag := "Wellness", revenue := 10000,
         sga_allocation := some 900 }] :=
  ⟨by decide,
   ((C1_prorata_pool_allocation (1/100) 9000 C1sample (by decide)).1.1
     (by decide)).1,
   by decide⟩

/-! ## C6: margin calculation -/

/-- Spec-side margin row (§4.4 of the spec): missing cost/allocation columns
default to zero, `margin_dollars` is revenue minus the five costs, and
`margin_percent` is `margin_dollars / revenue × 100` for nonzero revenue and
`0` for zero revenue. -/
def marginSpecRow (r : RevRow) : RevRow :=
  let lc := r.labor_cost.getD 0
  let ec := r.expense_cost.getD 0
  let sa := r.sga_allocation.getD 0
  let da := r.data_allocation.getD 0
  let wa := r.workplace_allocation.getD 0
  let md := r.revenue - lc - ec - sa - da - wa
  { r with
    labor_cost := some lc
    expense_cost := some ec
    sga_allocation := some sa
    data_allocation := some da
    workplace_allocation := some wa
    margin_dollars := some md
    margin_percent := some (if r.revenue = 0 then 0 else md / r.revenue * 100) }

/-- C6: `calculate_margins` is total (it returns a table for every input,
never raising), computes each row by the spec formula with missing or null
columns as zero and `margin_percent = 0` for zero revenue, and leaves the
caller's table untouched. -/
theorem C6_margin_calculator (df : List RevRow) :
    calculate_margins df = (df.map marginSpecRow, df) := by
  simp only [calculate_margins]
  rw [List.map_map]
  rfl

/-! ## C8: overhead pool derivation -/

/-- The emptiness guard on a P&L bucket total is redundant: the empty sum is
zero. -/
theorem ifEmpty_pnlBucketSum (pnl : List PnLRow) (b : String) :
    (if pnl.isEmpty then (0 : ℚ) else pnlBucketSum pnl b) = pnlBucketSum pnl b := by
  cases pnl <;> simp [pnlBucketSum]

/-- The cost-center contribution guarded by the switch and an emptiness test
equals adding the (possibly empty, hence zero) pool-labelled total exactly
when the switch is on. -/
theorem ifSwitch_ccPoolSum (x : ℚ) (inc : Bool) (cc : List CCRow) (p : String) :
    (if (inc && !cc.isEmpty) then x + ccPoolSum cc p else x)
      = x + (if inc then ccPoolSum cc p else 0) := by
  cases inc <;> cases cc <;> simp [ccPoolSum]

/-- C8: `sga_pool` is the ledger SGA-bucket total plus, exactly when the
single switch is on, the `SGA`-labelled cost-center spend; `data_pool`
likewise with the `DATA` bucket and label under the same switch; and
`workplace_pool` is the ledger WORKPLACE-bucket total with no cost-center
contribution under any configuration. -/
theorem C8_pool_derivation (pnl : List PnLRow) (cc : List CCRow) (inc : Bool) :
    calculate_pools pnl cc inc =
      { sga_pool := pnlBucketSum pnl "SGA" + (if inc then ccPoolSum cc "SGA" else 0)
        data_pool := pnlBucketSum pnl "DATA" + (if inc then ccPoolSum cc "DATA" else 0)
        workplace_pool := pnlBucketSum pnl "WORKPLACE" } := by
  simp only [calculate_pools]
  rw [ifEmpty_pnlBucketSum pnl "DATA", ifEmpty_pnlBucketSum pnl "WORKPLACE",
    ifEmpty_pnlBucketSum pnl "SGA", ifSwitch_ccPoolSum, ifSwitch_ccPoolSum]

/-! ## C3: the classification conflict rule -/

/-- C3: for a code carrying positive revenue in the revenue table (hence
counted as a revenue center by the classifier), `classify` raises the
conflict error naming the code exactly when the code is explicitly listed in
the cost-center configuration; when it is not so listed — in particular for
any `THS-`-prefixed code — it is classified `revenue_center` without
raising; and, for any revenue flag, the explicit-configuration conflict is
the only error `classify` can produce. -/
theorem C3_conflict_rule (config : List CCConfigRow) (revenue_df : List RevRow)
    (code : String)
    (hpos : ∃ r ∈ revenue_df, code = r.contract_code ∧ 0 < r.revenue) :
    ((classify (config.map (fun r => r.code)) code
        ((revenue_df.map (fun r => r.contract_code)).contains code) =
      Except.error (classifyConflictMsg code)) ↔
      (config.map (fun r => r.code)).contains code = true) ∧
    ((config.map (fun r => r.code)).contains code = false →
      classify (config.map (fun r => r.code)) code
        ((revenue_df.map (fun r => r.contract_code)).contains code) =
      Except.ok "revenue_center") ∧
    (∀ m isRev, classify (config.map (fun r => r.code)) code isRev =
        Except.error m →
      isRev = true ∧ (config.map (fun r => r.code)).contains code = true ∧
        m = classifyConflictMsg code) := by
  have hisRev : (revenue_df.map (fun r => r.contract_code)).contains code = true := by
    obtain ⟨r, hr, hcode, _⟩ := hpos
    simp only [List.contains, List.elem_eq_mem, List.mem_map, decide_eq_true_eq]
    exact ⟨r, hr, hcode.symm⟩
  refine ⟨?_, ?_, ?_⟩
  · rw [classify_eq, hisRev]
    cases h : (config.map (fun r => r.code)).contains code <;> simp [h]
  · intro h
    rw [classify_eq, hisRev, h]
    simp [classLabel, hisRev]
  · intro m isRev
    rw [classify_eq]
    cases isRev <;> cases h : (config.map (fun r => r.code)).contains code <;>
      simp [h, eq_comm]

/-- A one-entry cost-center configuration for the C3 witness. -/
def C3config : List CCConfigRow := [{ code := "THS-OPS", pool := "SGA" }]

/-- A revenue table whose only code is `THS-`-prefixed with positive
revenue. -/
def C3revenue : List RevRow :=
  [{ contract_code := "THS-PROJ", allocation_tag := "", revenue := 5000 }]

/-- Witness for C3: the `THS-`-prefixed code `THS-PROJ` carries positive
revenue and is not configured as a cost center, so `classify` returns
`revenue_center` without raising. -/
theorem C3_conflict_rule_witness :
    classify (C3config.map (fun r => r.code)) "THS-PROJ"
      ((C3revenue.map (fun r => r.contract_code)).contains "THS-PROJ") =
    Except.ok "revenue_center" :=
  (C3_conflict_rule C3config C3revenue "THS-PROJ"
    ⟨{ contract_code := "THS-PROJ", allocation_tag := "", revenue := 5000 },
     by decide, rfl, by decide⟩).2.1 (by decide)

/-! ## C9: allocation-tag conflict detection on duplicate Pro Forma rows -/

/-- C9: `_aggregate_duplicates` raises exactly when some contract code's rows
carry both a `Data` and a `Wellness` tag, every raised message is the
tag-conflict message naming a conflicting code, and when every code carries
at most one distinct non-blank tag the table is aggregated (one row per
unique code) without error — in particular the conflict scan runs before any
aggregated table is produced. -/
theorem C9_tag_conflict_detection (projects : List ProjectRow) :
    ((∃ m, aggregate_duplicates projects = Except.error m) ↔
      ∃ code ∈ projects.map (fun p => p.contract_code),
        hasTagConflict projects code = true) ∧
    (∀ m, aggregate_duplicates projects = Except.error m →
      ∃ code, hasTagConflict projects code = true ∧ m = tagConflictMsg code) ∧
    ((∀ code ∈ projects.map (fun p => p.contract_code),
        hasTagConflict projects code = false) →
      aggregate_duplicates projects =
        Except.ok (((projects.map (fun p => p.contract_code)).dedup).map
          (aggRowFor projects))) := by
  cases hf : ((projects.map (fun p => p.contract_code)).dedup).find?
      (fun c => hasTagConflict projects c) with
  | none =>
    have hnone : ∀ c ∈ (projects.map (fun p => p.contract_code)).dedup,
        hasTagConflict projects c = false := by
      intro c hc
      simpa using List.find?_eq_none.mp hf c hc
    refine ⟨?_, ?_, ?_⟩
    · constructor
      · rintro ⟨m, hm⟩
        simp [aggregate_duplicates, hf] at hm
      · rintro ⟨code, hcode, hconf⟩
        rw [hnone code (List.mem_dedup.mpr hcode)] at hconf
        cases hconf
    · intro m hm
      simp [aggregate_duplicates, hf] at hm
    · intro _
      simp [aggregate_duplicates, hf]
  | some c =>
    have hc : hasTagConflict projects c = true := List.find?_some hf
    have hcmem : c ∈ (projects.map (fun p => p.contract_code)).dedup :=
      List.mem_of_find?_eq_some hf
    refine ⟨?_, ?_, ?_⟩
    · constructor
      · intro _
        exact ⟨c, List.mem_dedup.mp hcmem, hc⟩
      · intro _
        exact ⟨tagConflictMsg c, by simp [aggregate_duplicates, hf]⟩
    · intro m hm
      simp [aggregate_duplicates, hf] at hm
      exact ⟨c, hc, hm.symm⟩
    · intro hall
      rw [hall c (List.mem_dedup.mp hcmem)] at hc
      cases hc

/-- Duplicate Pro Forma rows for code `X` carrying a `Data` tag and a blank
tag (no conflict), plus a single row for `Y`. -/
def C9sample : List ProjectRow :=
  [{ contract_code := "X", project_name := "P1", proforma_section := "BEH",
     allocation_tag := "Data", revenue := 100 },
   { contract_code := "X", project_name := "P1", proforma_section := "BEH",
     allocation_tag := "", revenue := 50 },
   { contract_code := "Y", project_name := "P2", proforma_section := "MAR",
     allocation_tag := "", revenue := 10 }]

/-- Witness for C9: with at most one distinct non-blank tag per code, the
loader aggregates without error, summing revenue and keeping the `Data`
tag. -/
theorem C9_tag_conflict_detection_witness :
    aggregate_duplicates C9sample =
      Except.ok
        [{ contract_code := "X", project_name := "P1", proforma_section := "BEH",
           allocation_tag := "Data", revenue := 150 },
         { contract_code := "Y", project_name := "P2", proforma_section := "MAR",
           allocation_tag := "", revenue := 10 }] :=
  Eq.trans ((C9_tag_conflict_detection C9sample).2.2 (by decide))
    (congrArg Except.ok (by decide))

/-! ## C2: the classification is a total, disjoint partition -/

/-- `List.contains` agrees with membership on string lists. -/
theorem scontains_iff {l : List String} {a : String} :
    l.contains a = true ↔ a ∈ l := by
  simp

/-- Membership in a label-filtered code list. -/
theorem mem_codesWithLabel {config : List CCConfigRow} {revenue_df : List RevRow}
    {all_codes : List String} {lab x : String} :
    x ∈ codesWithLabel config revenue_df all_codes lab ↔
      x ∈ all_codes ∧ labelOf config revenue_df x = lab := by
  unfold codesWithLabel
  rw [List.mem_filter]
  simp

/-- A code appears in the revenue-center table exactly when it appears in the
revenue frame and is classified `revenue_center`. -/
theorem mem_revenueCenterTable {revenue_df : List RevRow} {rcc : List String}
    {x : String} :
    x ∈ (revenueCenterTable revenue_df rcc).map (fun r => r.contract_code) ↔
      x ∈ revCodesOf revenue_df ∧ x ∈ rcc := by
  unfold revenueCenterTable revCodesOf
  constructor
  · intro hm
    rcases List.mem_map.mp hm with ⟨r, hr, hrx⟩
    rcases List.mem_filter.mp hr with ⟨hrdf, hpred⟩
    exact ⟨List.mem_map.mpr ⟨r, hrdf, hrx⟩, hrx ▸ scontains_iff.mp hpred⟩
  · rintro ⟨hxr, hxrcc⟩
    rcases List.mem_map.mp hxr with ⟨r, hr, hrx⟩
    exact List.mem_map.mpr
      ⟨r, List.mem_filter.mpr ⟨hr, scontains_iff.mpr (hrx.symm ▸ hxrcc)⟩, hrx⟩

/-- Every code of the cost-center table is one of the codes classified
`cost_center`. -/
theorem mem_costCenterTable_elim {config : List CCConfigRow} {ccc : List String}
    {x : String}
    (hm : x ∈ (costCenterTable config ccc).map (fun r => r.contract_code)) :
    x ∈ ccc := by
  unfold costCenterTable at hm
  rcases List.mem_map.mp hm with ⟨row, hrow, hrowx⟩
  rcases List.mem_append.mp hrow with hcf | hth
  · rcases List.mem_map.mp hcf with ⟨q, hq, hqrow⟩
    rcases List.mem_filter.mp hq with ⟨_, hqpred⟩
    subst hqrow
    exact hrowx ▸ scontains_iff.mp hqpred
  · rcases List.mem_map.mp hth with ⟨c, hcmem, hcrow⟩
    rcases List.mem_filter.mp hcmem with ⟨hcc, _⟩
    subst hcrow
    exact hrowx ▸ hcc

/-- A configured code classified `cost_center` appears in the cost-center
table (through its configuration row). -/
theorem mem_costCenterTable_cfg {config : List CCConfigRow} {ccc : List String}
    {x : String} (hx : x ∈ ccc) (hcfg : x ∈ ccCodesOf config) :
    x ∈ (costCenterTable config ccc).map (fun r => r.contract_code) := by
  rcases List.mem_map.mp hcfg with ⟨q, hq, hqx⟩
  refine List.mem_map.mpr ⟨CCRow.mk q.code q.pool 0, ?_, hqx⟩
  unfold costCenterTable
  exact List.mem_append_left _ (List.mem_map.mpr
    ⟨q, List.mem_filter.mpr ⟨hq, scontains_iff.mpr (hqx.symm ▸ hx)⟩, rfl⟩)

/-- A `THS-`-prefixed code classified `cost_center` but absent from the
configuration appears in the cost-center table (through the materialized
default rows). -/
theorem mem_costCenterTable_ths {config : List CCConfigRow} {ccc : List String}
    {x : String} (hx : x ∈ ccc) (hths : pyStartsWith x "THS-" = true)
    (hncfg : x ∉ ccCodesOf config) :
    x ∈ (costCenterTable config ccc).map (fun r => r.contract_code) := by
  have hnc : (((config.filter (fun r => ccc.contains r.code)).map
      (fun r => CCRow.mk r.code r.pool 0)).map
        (fun r => r.contract_code)).contains x = false := by
    cases hnch : (((config.filter (fun r => ccc.contains r.code)).map
        (fun r => CCRow.mk r.code r.pool 0)).map
          (fun r => r.contract_code)).contains x with
    | false => rfl
    | true =>
      exfalso
      rcases List.mem_map.mp (scontains_iff.mp hnch) with ⟨row, hrow, hrowx⟩
      rcases List.mem_map.mp hrow with ⟨q, hq, hqrow⟩
      subst hqrow
      exact hncfg (List.mem_map.mpr ⟨q, (List.mem_filter.mp hq).1, hrowx⟩)
  refine List.mem_map.mpr ⟨CCRow.mk x "SGA" 0, ?_, rfl⟩
  unfold costCenterTable
  exact List.mem_append_right _ (List.mem_map.mpr
    ⟨x, List.mem_filter.mpr ⟨hx, by rw [hths, hnc]; rfl⟩, rfl⟩)

/-- C2: when `classify_all_activity` succeeds, every contract code of the
union of the revenue, hours and expense sources and the configured
cost-center codes appears in exactly one of the three output tables. -/
theorem C2_classification_partition
    (config : List CCConfigRow) (revenue_df : List RevRow)
    (hours_df : List HoursRow) (expenses_df : List ExpRow)
    (rcs : List RevRow) (ccs : List CCRow) (nrcs : List String)
    (hok : classify_all_activity config revenue_df hours_df expenses_df =
      Except.ok (rcs, ccs, nrcs)) :
    ∀ code ∈ allCodesOf config revenue_df hours_df expenses_df,
      (code ∈ rcs.map (fun r => r.contract_code) ∧
        code ∉ ccs.map (fun r => r.contract_code) ∧ code ∉ nrcs) ∨
      (code ∉ rcs.map (fun r => r.contract_code) ∧
        code ∈ ccs.map (fun r => r.contract_code) ∧ code ∉ nrcs) ∨
      (code ∉ rcs.map (fun r => r.contract_code) ∧
        code ∉ ccs.map (fun r => r.contract_code) ∧ code ∈ nrcs) := by
  simp only [classify_all_activity] at hok
  cases hfind : (allCodesOf config revenue_df hours_df expenses_df).find?
      (fun c => (revCodesOf revenue_df).contains c && (ccCodesOf config).contains c) with
  | some c =>
    rw [hfind] at hok
    exact absurd hok (by simp)
  | none =>
    rw [hfind] at hok
    simp only [Except.ok.injEq, Prod.mk.injEq] at hok
    obtain ⟨h1, h2, h3⟩ := hok
    subst h1
    subst h2
    subst h3
    intro code hcode
    cases hrev : (revCodesOf revenue_df).contains code with
    | true =>
      have hmr : code ∈ revCodesOf revenue_df := scontains_iff.mp hrev
      have hlab : labelOf config revenue_df code = "revenue_center" := by
        simp [labelOf, classLabel, hmr]
      refine Or.inl ⟨?_, ?_, ?_⟩
      · exact mem_revenueCenterTable.mpr ⟨scontains_iff.mp hrev,
          mem_codesWithLabel.mpr ⟨hcode, hlab⟩⟩
      · intro hm
        have hl2 := (mem_codesWithLabel.mp (mem_costCenterTable_elim hm)).2
        rw [hlab] at hl2
        exact absurd hl2 (by decide)
      · intro hm
        have hl2 := (mem_codesWithLabel.mp hm).2
        rw [hlab] at hl2
        exact absurd hl2 (by decide)
    | false =>
      have hnr : code ∉ revCodesOf revenue_df := by
        intro hm
        have h := scontains_iff.mpr hm
        rw [hrev] at h
        exact absurd h (by decide)
      have hnotin : code ∉ (revenueCenterTable revenue_df
          (codesWithLabel config revenue_df
            (allCodesOf config revenue_df hours_df expenses_df)
            "revenue_center")).map (fun r => r.contract_code) := by
        intro hm
        have h := scontains_iff.mpr (mem_revenueCenterTable.mp hm).1
        rw [hrev] at h
        exact absurd h (by decide)
      cases hcfg : (ccCodesOf config).contains code with
      | true =>
        have hmc : code ∈ ccCodesOf config := scontains_iff.mp hcfg
        have hlab : labelOf config revenue_df code = "cost_center" := by
          simp [labelOf, classLabel, hnr, hmc]
        refine Or.inr (Or.inl ⟨hnotin, ?_, ?_⟩)
        · exact mem_costCenterTable_cfg (mem_codesWithLabel.mpr ⟨hcode, hlab⟩)
            (scontains_iff.mp hcfg)
        · intro hm
          have hl2 := (mem_codesWithLabel.mp hm).2
          rw [hlab] at hl2
          exact absurd hl2 (by decide)
      | false =>
        have hncc : code ∉ ccCodesOf config := by
          intro hm
          have h := scontains_iff.mpr hm
          rw [hcfg] at h
          exact absurd h (by decide)
        cases hths : pyStartsWith code "THS-" with
        | true =>
          have hlab : labelOf config revenue_df code = "cost_center" := by
            simp [labelOf, classLabel, hnr, hncc, hths]
          refine Or.inr (Or.inl ⟨hnotin, ?_, ?_⟩)
          · refine mem_costCenterTable_ths (mem_codesWithLabel.mpr ⟨hcode, hlab⟩)
              hths ?_
            intro hm
            have h := scontains_iff.mpr hm
            rw [hcfg] at h
            exact absurd h (by decide)
          · intro hm
            have hl2 := (mem_codesWithLabel.mp hm).2
            rw [hlab] at hl2
            exact absurd hl2 (by decide)
        | false =>
          have hlab : labelOf config revenue_df code = "non_revenue_client" := by
            simp [labelOf, classLabel, hnr, hncc, hths]
          refine Or.inr (Or.inr ⟨hnotin, ?_, ?_⟩)
          · intro hm
            have hl2 := (mem_codesWithLabel.mp (mem_costCenterTable_elim hm)).2
            rw [hlab] at hl2
            exact absurd hl2 (by decide)
          · exact mem_codesWithLabel.mpr ⟨hcode, hlab⟩

/-- A one-entry configuration for the C2 witness. -/
def C2config : List CCConfigRow := [{ code := "THS-OPS", pool := "SGA" }]

/-- A revenue frame with one project for the C2 witness. -/
def C2revenue : List RevRow :=
  [{ contract_code := "BEH-01", allocation_tag := "", revenue := 100 }]

/-- An hours frame whose only code is an unconfigured internal `THS-` code. -/
def C2hours : List HoursRow :=
  [{ contract_code := "THS-INT", staff_key := "Smith", hours := 5 }]

/-- An empty expenses frame for the C2 witness. -/
def C2expenses : List ExpRow := []

/-- The revenue-center table classification produces for the C2 witness
data. -/
def C2rcs : List RevRow :=
  [{ contract_code := "BEH-01", allocation_tag := "", revenue := 100 }]

/-- The cost-center table classification produces for the C2 witness data:
the configured code followed by the auto-classified `THS-` code. -/
def C2ccs : List CCRow :=
  [{ contract_code := "THS-OPS", pool := "SGA", total_cost := 0 },
   { contract_code := "THS-INT", pool := "SGA", total_cost := 0 }]

/-- Witness for C2 at concrete data: classification succeeds, and the
auto-classified code `THS-INT` lands in the cost-center table and in neither
of the other two tables. -/
theorem C2_classification_partition_witness :
    ("THS-INT" ∈ C2rcs.map (fun r => r.contract_code) ∧
      "THS-INT" ∉ C2ccs.map (fun r => r.contract_code) ∧
      "THS-INT" ∉ ([] : List String)) ∨
    ("THS-INT" ∉ C2rcs.map (fun r => r.contract_code) ∧
      "THS-INT" ∈ C2ccs.map (fun r => r.contract_code) ∧
      "THS-INT" ∉ ([] : List String)) ∨
    ("THS-INT" ∉ C2rcs.map (fun r => r.contract_code) ∧
      "THS-INT" ∉ C2ccs.map (fun r => r.contract_code) ∧
      "THS-INT" ∈ ([] : List String)) :=
  C2_classification_partition C2config C2revenue C2hours C2expenses
    C2rcs C2ccs [] (by rfl) "THS-INT" (by decide)

/-! ## C4: validator orchestration -/

/-- The failure messages a list of findings contributes to the aggregated
`ValidationResult` (with `add_failure`'s marker). -/
def failMsgs (events : List VEvent) : List String :=
  events.filterMap (fun e =>
    match e with
    | VEvent.fail m => some ("✗ " ++ m)
    | _ => none)

/-- `failMsgs` distributes over concatenation. -/
theorem failMsgs_append (a b : List VEvent) :
    failMsgs (a ++ b) = failMsgs a ++ failMsgs b :=
  List.filterMap_append a b _

/-- Replaying findings accumulates exactly their failure messages. -/
theorem foldl_record_failures (events : List VEvent) :
    ∀ r : ValidationResult,
      (events.foldl ValidationResult.record r).failures =
        r.failures ++ failMsgs events := by
  induction events with
  | nil => intro r; simp [failMsgs]
  | cons e tl ih =>
    intro r
    cases e <;>
      simp [ValidationResult.record, failMsgs, ih, List.filterMap_cons]

/-- A list of findings with no failure contributes no failure message. -/
theorem failMsgs_eq_nil_of_no_fail (events : List VEvent)
    (h : ∀ m, VEvent.fail m ∉ events) : failMsgs events = [] := by
  induction events with
  | nil => rfl
  | cons e tl ih =>
    cases e with
    | fail m => exact absurd (List.mem_cons_self _ _) (h m)
    | pass m =>
      simp only [failMsgs, List.filterMap_cons]
      exact ih (fun m' hm' => h m' (List.mem_cons_of_mem _ hm'))
    | warn m =>
      simp only [failMsgs, List.filterMap_cons]
      exact ih (fun m' hm' => h m' (List.mem_cons_of_mem _ hm'))

/-- The reasonableness family contributes no failure message on any data. -/
theorem reasonableness_no_failures (d : AnalysisData) :
    failMsgs (reasonablenessValidate d) = [] :=
  failMsgs_eq_nil_of_no_fail _ (by
    intro m hm
    simp [reasonablenessValidate] at hm
    rcases hm with ⟨-, hm⟩
    split at hm <;> simp at hm)

/-- The failures of the aggregated result are exactly the failure messages
of the completeness, key-integrity and mathematical families, in order
(reasonableness contributing none). -/
theorem runEvents_all_failures (tol : ℚ) (d : AnalysisData) :
    (runEvents (allValidationEvents tol d)).failures =
      failMsgs (completenessValidate d) ++ failMsgs (keyIntegrityValidate d)
        ++ failMsgs (mathematicalValidate tol d) := by
  show ((allValidationEvents tol d).foldl ValidationResult.record
      ValidationResult.empty).failures = _
  rw [foldl_record_failures]
  unfold allValidationEvents
  rw [failMsgs_append, failMsgs_append, failMsgs_append,
    reasonableness_no_failures]
  simp [ValidationResult.empty]

/-- With a recorded failure, `run_all_validations` raises. -/
theorem run_all_error_of_failures (d : AnalysisData) (tol : ℚ)
    (h : (runEvents (allValidationEvents tol d)).failures ≠ []) :
    ∃ m, run_all_validations d tol = Except.error m := by
  refine ⟨"Validation failed: " ++ (runEvents (allValidationEvents tol d)).summary, ?_⟩
  unfold run_all_validations
  cases hl : (runEvents (allValidationEvents tol d)).failures with
  | nil => exact absurd hl h
  | cons a t => simp [ValidationResult.has_failures, hl]

/-- C4: `run_all_validations` replays the findings of all four rule families
(completeness, key integrity, mathematical reconciliation, reasonableness)
run unconditionally in sequence; the reasonableness family never records a
failure; the run raises the error carrying the aggregated pass/warn/fail
summary exactly when some failure was recorded, returns the aggregated
result exactly when none was, and therefore succeeds whenever the first
three families are failure-free — reasonableness findings alone never abort
the run. -/
theorem C4_run_all_validations (d : AnalysisData) (tol : ℚ) :
    failMsgs (reasonablenessValidate d) = [] ∧
    (runEvents (allValidationEvents tol d)).failures =
      failMsgs (completenessValidate d) ++ failMsgs (keyIntegrityValidate d)
        ++ failMsgs (mathematicalValidate tol d) ∧
    (run_all_validations d tol =
        Except.error ("Validation failed: " ++
          (runEvents (allValidationEvents tol d)).summary) ↔
      (runEvents (allValidationEvents tol d)).failures ≠ []) ∧
    (run_all_validations d tol = Except.ok (runEvents (allValidationEvents tol d)) ↔
      (runEvents (allValidationEvents tol d)).failures = []) ∧
    (failMsgs (completenessValidate d) = [] →
      failMsgs (keyIntegrityValidate d) = [] →
      failMsgs (mathematicalValidate tol d) = [] →
      run_all_validations d tol =
        Except.ok (runEvents (allValidationEvents tol d))) := by
  have hfail := runEvents_all_failures tol d
  refine ⟨reasonableness_no_failures d, hfail, ?_, ?_, ?_⟩
  · unfold run_all_validations
    cases hl : (runEvents (allValidationEvents tol d)).failures with
    | nil =>
      simp [ValidationResult.has_failures, hl]
    | cons a t =>
      simp [ValidationResult.has_failures, hl]
  · unfold run_all_validations
    cases hl : (runEvents (allValidationEvents tol d)).failures with
    | nil =>
      simp [ValidationResult.has_failures, hl]
    | cons a t =>
      simp [ValidationResult.has_failures, hl]
  · intro h1 h2 h3
    unfold run_all_validations
    have : (runEvents (allValidationEvents tol d)).failures = [] := by
      rw [hfail, h1, h2, h3]
      rfl
    simp [ValidationResult.has_failures, this]

/-- A fully consistent data dictionary: one revenue center with matching
Pro Forma total, reconciled allocations, covered staff, empty ledger. -/
def C4data : AnalysisData :=
  { revenue_centers :=
      [{ contract_code := "A", allocation_tag := "", revenue := 100, hours := some 5,
         labor_cost := some 50, expense_cost := some 0, sga_allocation := some 9,
         data_allocation := some 0, workplace_allocation := some 0,
         margin_dollars := some 41, margin_percent := some 41 }]
    cost_centers := []
    non_revenue_clients := []
    proforma := [{ contract_code := "A", allocation_tag := "", revenue := 100 }]
    pools := { sga_pool := 9, data_pool := 0, workplace_pool := 0 }
    hours := [{ contract_code := "A", staff_key := "Smith", hours := 5 }]
    expenses := []
    compensation := [{ staff_key := "Smith", hourly_cost := 10 }]
    pnl := [] }

/-- Witness for C4 on consistent data: reasonableness contributes no
failure, and with the other three families failure-free the run returns the
aggregated result instead of raising. -/
theorem C4_run_all_validations_witness :
    failMsgs (reasonablenessValidate C4data) = [] ∧
    run_all_validations C4data (1/100) =
      Except.ok (runEvents (allValidationEvents (1/100) C4data)) :=
  ⟨(C4_run_all_validations C4data (1/100)).1,
   (C4_run_all_validations C4data (1/100)).2.2.2.2 (by decide) (by decide)
     (by decide)⟩

/-! ## C7: labor exclusion for staff without compensation -/

/-- Data whose only issue is the staff key `Ghost` in the hours table with
no compensation record; every other check passes. -/
def C7data : AnalysisData :=
  { revenue_centers :=
      [{ contract_code := "A", allocation_tag := "", revenue := 100, hours := some 5,
         labor_cost := some 0, expense_cost := some 0, sga_allocation := some 9,
         data_allocation := some 0, workplace_allocation := some 0,
         margin_dollars := some 91, margin_percent := some 91 }]
    cost_centers := []
    non_revenue_clients := []
    proforma := [{ contract_code := "A", allocation_tag := "", revenue := 100 }]
    pools := { sga_pool := 9, data_pool := 0, workplace_pool := 0 }
    hours := [{ contract_code := "A", staff_key := "Ghost", hours := 5 }]
    expenses := []
    compensation := [{ staff_key := "Smith", hourly_cost := 10 }]
    pnl := [] }

/-- Counterexample to C7 as stated: with the staff key `Ghost` absent from
compensation and no other issue (the completeness and mathematical families
are failure-free), the labor computation excludes the staff's rows entirely
(no zero-cost row) and records the warning with the excluded staff count and
excluded hours, yet the pipeline run does not succeed —
`run_all_validations` raises, because the key-integrity family records the
same missing-staff condition as a hard failure. -/
theorem C7_labor_exclusion_counterexample :
    (calculate_labor_costs C7data.hours C7data.compensation).2 = some (1, 5) ∧
    (calculate_labor_costs C7data.hours C7data.compensation).1 = [] ∧
    failMsgs (completenessValidate C7data) = [] ∧
    failMsgs (mathematicalValidate (1/100) C7data) = [] ∧
    (run_all_validations C7data (1/100)).isOk = false := by
  decide

/-- C7 (amended): hours rows whose staff key has no compensation record are
excluded from the labor table (the table equals that of the matched rows
only, so the dropped hours are not counted as zero-cost), a warning
reporting the distinct excluded staff count and the total excluded hours is
recorded whenever such rows exist — but the pipeline run does NOT succeed:
whenever the hours and compensation tables are nonempty and some hours staff
key is missing from compensation, `run_all_validations` raises, because the
key-integrity family records that condition as a hard failure. -/
theorem C7_labor_exclusion_amended (hours_df : List HoursRow)
    (comp_df : List CompRow) :
    (calculate_labor_costs hours_df comp_df).1 =
      (calculate_labor_costs (hours_df.filter
        (fun h => (compLookup comp_df h.staff_key).isSome)) comp_df).1 ∧
    (missingCompRows hours_df comp_df ≠ [] →
      (calculate_labor_costs hours_df comp_df).2 =
        some ((((missingCompRows hours_df comp_df).map
            (fun h => h.staff_key)).dedup).length,
          ((missingCompRows hours_df comp_df).map (fun h => h.hours)).sum)) ∧
    (∀ (d : AnalysisData) (tol : ℚ), d.hours ≠ [] → d.compensation ≠ [] →
      staffMissingFromComp d.hours d.compensation ≠ [] →
      ∃ m, run_all_validations d tol = Except.error m) := by
  refine ⟨?_, ?_, ?_⟩
  · have hkept : matchedCompRows (hours_df.filter
        (fun h => (compLookup comp_df h.staff_key).isSome)) comp_df =
        matchedCompRows hours_df comp_df := by
      unfold matchedCompRows
      rw [List.filter_filter]
      congr 1
      funext h
      exact Bool.and_self _
    simp only [calculate_labor_costs]
    rw [hkept]
  · intro hne
    have hm : (missingCompRows hours_df comp_df).isEmpty = false := by
      cases hl : missingCompRows hours_df comp_df with
      | nil => exact absurd hl hne
      | cons a t => rfl
    simp [calculate_labor_costs, hm]
  · intro d tol hh hc hmiss
    have hcond : (d.hours.isEmpty || d.compensation.isEmpty) = false := by
      cases hhl : d.hours with
      | nil => exact absurd hhl hh
      | cons a t =>
        cases hcl : d.compensation with
        | nil => exact absurd hcl hc
        | cons b u => rfl
    have hmiss2 : (staffMissingFromComp d.hours d.compensation).isEmpty = false := by
      cases hl : staffMissingFromComp d.hours d.compensation with
      | nil => exact absurd hl hmiss
      | cons a t => rfl
    have hkey : failMsgs (keyIntegrityValidate d) ≠ [] := by
      unfold keyIntegrityValidate
      rw [failMsgs_append, failMsgs_append]
      intro hnil
      rw [hcond, hmiss2] at hnil
      simp [failMsgs] at hnil
    apply run_all_error_of_failures
    rw [runEvents_all_failures]
    intro hnil
    rcases List.append_eq_nil.mp hnil with ⟨hab, hc3⟩
    rcases List.append_eq_nil.mp hab with ⟨ha, hb⟩
    exact hkey hb

/-- Witness for the amended C7 at the counterexample data: the warning
reports one excluded staff member and five excluded hours, and the run
raises. -/
theorem C7_labor_exclusion_amended_witness :
    (calculate_labor_costs C7data.hours C7data.compensation).2 = some (1, 5) ∧
    (∃ m, run_all_validations C7data (1/100) = Except.error m) :=
  ⟨Eq.trans ((C7_labor_exclusion_amended C7data.hours C7data.compensation).2.1
      (by decide)) (by decide),
   (C7_labor_exclusion_amended C7data.hours C7data.compensation).2.2 C7data
     (1/100) (by decide) (by decide) (by decide)⟩

/-! ## C5: revenue-center status of zero-revenue codes -/

/-- C5 (code bug, evaluated at the failing input): a code present in the
revenue-forecast frame with revenue exactly `0` is classified as a Revenue
Center by `classify_all_activity` — the classification loop keys
revenue-center status on presence in the frame (`code in revenue_codes`),
not on positive revenue, contradicting the classifier's own documentation
("Revenue center = revenue > 0 in Pro Forma") and the spec.  With an empty
configuration and the single zero-revenue row `Z`, the code lands in the
revenue-centers output table. -/
theorem C5_zero_revenue_classified_revenue_center :
    classify_all_activity []
      [{ contract_code := "Z", allocation_tag := "", revenue := 0 }] [] [] =
      Except.ok
        ([{ contract_code := "Z", allocation_tag := "", revenue := 0 }], [], []) :=
  rfl

/-! ## C10: frame effects of the allocation and margin operations -/

/-- Counterexample to C10 as stated: in the zero-cohort-revenue branch
`allocate_sga` writes the zeroed `sga_allocation` column into the caller's
frame (the source assigns the column before taking a copy), so the caller's
snapshot after the call differs from the original table. -/
theorem C10_immutability_counterexample :
    (allocate_sga (1/100)
      [{ contract_code := "A", allocation_tag := "", revenue := 0 }] 5).2 ≠
      [{ contract_code := "A", allocation_tag := "", revenue := 0 }] := by
  decide

/-- C10 (amended): `allocate_data`, `allocate_workplace` and
`calculate_margins` leave the caller's table unchanged on every input, and
`allocate_sga` leaves it unchanged whenever total revenue is positive; in
the zero-or-negative branch `allocate_sga` instead hands back the caller's
table with the zeroed `sga_allocation` column written in place. -/
theorem C10_frame_effects (tol pool : ℚ) (df : List RevRow) :
    (0 < revenueSum df → (allocate_sga tol df pool).2 = df) ∧
    (revenueSum df ≤ 0 → (allocate_sga tol df pool).2 =
      df.map (fun r => { r with sga_allocation := some 0 })) ∧
    (allocate_data tol df pool).2 = df ∧
    (allocate_workplace tol df pool).2 = df ∧
    (calculate_margins df).2 = df := by
  refine ⟨?_, ?_, ?_, ?_, rfl⟩
  · intro hpos
    simp only [allocate_sga]
    rw [if_neg (not_le.mpr hpos)]
    split <;> rfl
  · intro hle
    simp only [allocate_sga]
    rw [if_pos hle]
  · simp only [allocate_data]
    split
    · rfl
    · split <;> rfl
  · simp only [allocate_workplace]
    split
    · rfl
    · split <;> rfl

/-- A one-row table with positive revenue for the C10 witness. -/
def C10sample : List RevRow :=
  [{ contract_code := "B", allocation_tag := "", revenue := 10 }]

/-- Witness for the amended C10: on a positive-revenue table the SGA and
Data allocators leave the caller's frame untouched. -/
theorem C10_frame_effects_witness :
    (allocate_sga (1/100) C10sample 7).2 = C10sample ∧
    (allocate_data (1/100) C10sample 7).2 = C10sample :=
  ⟨(C10_frame_effects (1/100) 7 C10sample).1 (by decide),
   (C10_frame_effects (1/100) 7 C10sample).2.2.1⟩

end RatEval

end TH
